import Mathlib

/-!
Shallow embedding of the UPbit auto-trading core (src/trading/trade.py and
src/trading/trading_strategy.py) over exact rational arithmetic, together
with theorems settling the frozen claims about it.

Conventions of the embedding:
* Python floats are modelled as `ℚ`.  IEEE NaN/inf are not representable;
  the two places where the source can produce them (a zero denominator fed
  to numpy float division) are noted with comments at the definition.
* `pandas.DataFrame`s are lists of typed rows; a NaN cell is an `Option`
  that is `none`.  `ffill` and `dropna` are modelled explicitly.
* Network / database / clock effects (`requests`, `get_my_exchange_account`,
  `get_balance`, `save_trade_status`, `datetime.now`) are modelled by passing
  the values they would produce as explicit inputs (an `Env` record, a
  timestamp, the account asset, the list of trade fills of an order, the
  open-orders responses of the exchange).
* Python exceptions (`IndexError` from `.iloc` on an empty frame) are
  modelled with `Except String`.
-/

namespace UPbit

/-- Sum of a list of rationals (models `pandas.Series.sum()`, which is `0`
on an empty series). -/
def sumL (l : List ℚ) : ℚ := l.foldl (· + ·) 0

/-- Mean of a list of rationals.  `pandas` returns NaN on an empty series;
this total model returns `0` there.  Every use below is guarded so that the
list is provably nonempty when the value matters. -/
def meanL (l : List ℚ) : ℚ := sumL l / l.length

/-- The last `k` elements of a list (models `series.iloc[-k:]` /
a trailing `rolling(k)` window ending at the last row). -/
def lastN (k : ℕ) (l : List ℚ) : List ℚ := l.drop (l.length - k)

/-- Minimum of a nonempty list; `0` on the empty list (only used where the
list is provably nonempty). -/
def minL (l : List ℚ) : ℚ :=
  match l with
  | [] => 0
  | x :: xs => xs.foldl min x

/-- `series.iloc[-k]` (k ≥ 1): the k-th element from the end, or an
`IndexError` when the series is too short.  This is the one pandas access
that raises rather than yielding NaN. -/
def ilocNeg (k : ℕ) (l : List ℚ) : Except String ℚ :=
  match (l.drop (l.length - k)).head? with
  | some x => .ok x
  | none => .error "IndexError: single positional indexer is out-of-bounds"

/-- Python `round` (banker's rounding, round-half-to-even) on a rational. -/
def pyround (q : ℚ) : ℤ :=
  let f : ℤ := ⌊q⌋
  let frac : ℚ := q - f
  if frac < 1/2 then f
  else if 1/2 < frac then f + 1
  else if f % 2 = 0 then f else f + 1

/-! ## trade.py — pure order-layer functions -/

/-- `get_tick_size` (trade.py:379): rounds a price to the Upbit tick-size
ladder, a step function of the price magnitude. -/
def get_tick_size (price : ℚ) : ℚ :=
  if price < 2000 then (pyround price : ℚ)
  else if price < 5000 then (pyround (price / 5) : ℚ) * 5
  else if price < 10000 then (pyround (price / 10) : ℚ) * 10
  else if price < 50000 then (pyround (price / 50) : ℚ) * 50
  else if price < 100000 then (pyround (price / 100) : ℚ) * 100
  else if price < 500000 then (pyround (price / 500) : ℚ) * 500
  else (pyround (price / 1000) : ℚ) * 1000

/-- `calculate_stop_loss_take_profit` (trade.py:396): volatility-scaled
stop-loss / take-profit bracket around the entry price.  `atr = none`
models the Python `None` argument. -/
def calculate_stop_loss_take_profit (buy_price : ℚ) (atr : Option ℚ)
    (fee_rate : ℚ) : ℚ × ℚ :=
  let min_stop_loss := buy_price * (1 - 0.02)
  let min_take_profit := buy_price * (1 + 0.005)
  let a := match atr with
    | none => buy_price * 0.005
    | some v => if v ≤ 0 then buy_price * 0.005 else v
  let atr_multiplier : ℚ := if buy_price < 5000 then 5 else 3
  let stop_loss := max (buy_price - a * atr_multiplier) min_stop_loss * (1 - fee_rate)
  let take_profit := max (buy_price + a * 4) min_take_profit * (1 - fee_rate)
  (stop_loss * (1 - fee_rate * 2), take_profit * (1 - fee_rate * 2))

/-- `calculate_fixed_take_profit` (trade.py:470): fixed +1% target net of
both legs of the fee. -/
def calculate_fixed_take_profit (buy_price : ℚ) (fee_rate : ℚ) : ℚ :=
  buy_price * 1.01 * (1 - fee_rate * 2)

/-- One trade fill of an order (an element of the `trades` array returned
by the exchange order query). -/
structure TradeFill where
  price : ℚ
  volume : ℚ
deriving DecidableEq, Repr

/-- Total filled volume over the fills of an order. -/
def totalVolume (trades : List TradeFill) : ℚ := sumL (trades.map (·.volume))

/-- Total cost (Σ price·volume) over the fills of an order. -/
def totalCost (trades : List TradeFill) : ℚ :=
  sumL (trades.map (fun t => t.price * t.volume))

/-- `get_avg_buy_price` (trade.py:444): volume-weighted average fill price
of an order, `none` (Python `None`) when there are no fills.  The HTTP
order query `get_order_status` is modelled by passing the `trades` list it
would return. -/
def get_avg_buy_price (trades : List TradeFill) : Option ℚ :=
  if trades = [] then none
  else
    let total_volume := totalVolume trades
    let total_cost := totalCost trades
    if total_volume = 0 then none
    else some (total_cost / total_volume)

/-- The parameter record a sell order submits to the exchange
(`params` in `sell_market` / `sell_limit`). -/
structure OrderParams where
  market : String
  side : String
  ord_type : String
  volume : ℚ
  price : Option ℚ
deriving DecidableEq, Repr

/-- `sell_market` (trade.py:94): market sell.  Returns the submitted order
parameters, or `none` when no order is submitted (invalid input, or the
balance re-queried from the account — `available_volume` — is below the
requested volume).  The Python NaN/inf guards on `volume` are not
representable in `ℚ`; the `volume ≤ 0` guard is kept. -/
def sell_market (market : String) (volume : ℚ) (available_volume : ℚ) :
    Option OrderParams :=
  if market = "" ∨ volume ≤ 0 then none
  else if available_volume < volume then none
  else some ⟨market, "ask", "market", volume, none⟩

/-- `sell_limit` (trade.py:335): limit sell.  Same balance cap as
`sell_market`; the price is normalized to the tick ladder (floored at 1). -/
def sell_limit (market : String) (price : ℚ) (volume : ℚ)
    (available_volume : ℚ) : Option OrderParams :=
  if market = "" ∨ price ≤ 0 then none
  else if available_volume < volume then none
  else some ⟨market, "ask", "limit", volume, some (max (get_tick_size price) 1)⟩

/-! ## DataFrame model: candles and order-book rows, ffill / dropna -/

/-- A raw candle row (OHLCV); `none` models a NaN cell. -/
structure CandleRowO where
  op : Option ℚ
  hi : Option ℚ
  lo : Option ℚ
  cl : Option ℚ
  vol : Option ℚ
deriving DecidableEq, Repr

/-- A candle row with no NaN left (after `ffill().dropna()`). -/
structure CandleRow where
  op : ℚ
  hi : ℚ
  lo : ℚ
  cl : ℚ
  vol : ℚ
deriving DecidableEq, Repr

/-- A raw order-book row as produced by `get_orderbook_data`
(`buy_volume`, `sell_volume`, the rolling `sell_wall` column); `none`
models a NaN cell. -/
structure ObRowO where
  buy_volume : Option ℚ
  sell_volume : Option ℚ
  sell_wall : Option ℚ
deriving DecidableEq, Repr

/-- An order-book row with no NaN left. -/
structure ObRow where
  buy_volume : ℚ
  sell_volume : ℚ
  sell_wall : ℚ
deriving DecidableEq, Repr

/-- Column-wise forward fill for candle frames (pandas `ffill`). -/
def ffillCandles : CandleRowO → List CandleRowO → List CandleRowO
  | _, [] => []
  | prev, r :: rs =>
    let r' : CandleRowO :=
      ⟨r.op.orElse (fun _ => prev.op), r.hi.orElse (fun _ => prev.hi),
       r.lo.orElse (fun _ => prev.lo), r.cl.orElse (fun _ => prev.cl),
       r.vol.orElse (fun _ => prev.vol)⟩
    r' :: ffillCandles r' rs

/-- A candle row with every cell present, or `none` (the row is dropped by
`dropna`). -/
def candleComplete (r : CandleRowO) : Option CandleRow :=
  match r.op, r.hi, r.lo, r.cl, r.vol with
  | some o, some h, some l, some c, some v => some ⟨o, h, l, c, v⟩
  | _, _, _, _, _ => none

/-- `df.copy().ffill().dropna()` on a candle frame
(trading_strategy.py:131-133). -/
def processCandles (df : List CandleRowO) : List CandleRow :=
  (ffillCandles ⟨none, none, none, none, none⟩ df).filterMap candleComplete

/-- Column-wise forward fill for order-book frames. -/
def ffillOb : ObRowO → List ObRowO → List ObRowO
  | _, [] => []
  | prev, r :: rs =>
    let r' : ObRowO :=
      ⟨r.buy_volume.orElse (fun _ => prev.buy_volume),
       r.sell_volume.orElse (fun _ => prev.sell_volume),
       r.sell_wall.orElse (fun _ => prev.sell_wall)⟩
    r' :: ffillOb r' rs

/-- An order-book row with every cell present, or `none`. -/
def obComplete (r : ObRowO) : Option ObRow :=
  match r.buy_volume, r.sell_volume, r.sell_wall with
  | some b, some s, some w => some ⟨b, s, w⟩
  | _, _, _ => none

/-- `df_orderbook.copy().ffill().dropna()` (trading_strategy.py:134). -/
def processOb (df : List ObRowO) : List ObRow :=
  (ffillOb ⟨none, none, none⟩ df).filterMap obComplete

/-! ## Strategy data model -/

/-- The per-ticker slice of the module-level `TradingContext`
(trading_strategy.py:20-41), plus the running profit accumulators.
Timestamps are rational epoch seconds; an absent dictionary key is
`none` (or `0` for the counters, matching `.get(ticker, 0)`). -/
structure Ctx where
  last_sell_time : Option ℚ
  consecutive_losses : ℤ
  last_buy_time : Option ℚ
  peak_price_since_buy : Option ℚ
  /-- `last_partial_sell_time[ticker]` -/
  psTime : Option ℚ
  /-- `partial_sell_count[ticker]` (absent key ≡ 0) -/
  psCount : ℕ
  avg_buy_price : Option ℚ
  realized_profit : ℚ
  daily_profit : ℚ
deriving DecidableEq, Repr

/-- `TradingContext.update_loss` (trading_strategy.py:33): bump the loss
streak and stamp the sell time. -/
def updateLoss (now : ℚ) (c : Ctx) : Ctx :=
  { c with consecutive_losses := c.consecutive_losses + 1,
           last_sell_time := some now }

/-- `TradingContext.reset_loss` (trading_strategy.py:38). -/
def resetLoss (c : Ctx) : Ctx :=
  { c with consecutive_losses := 0, last_sell_time := none }

/-- Add realized profit to both accumulators. -/
def addProfit (p : ℚ) (c : Ctx) : Ctx :=
  { c with realized_profit := c.realized_profit + p,
           daily_profit := c.daily_profit + p }

/-- The exchange-account view of the ticker
(`get_my_exchange_account().assets[ticker]`); `none` when the asset key is
absent. -/
structure Asset where
  balance : ℚ
  avg_buy_price : ℚ
deriving DecidableEq, Repr

/-- External-world values read during one evaluation: the wall clock and
the account/balance queries.  Two queries of the same source inside one
call are modelled as returning the same value. -/
structure Env where
  /-- `datetime.now()` as epoch seconds -/
  nowT : ℚ
  /-- `datetime.now().hour` -/
  nowHour : ℕ
  /-- `get_current_volume_ratio(ticker)` -/
  volHeldFrac : ℚ
  /-- `get_my_exchange_account().assets.get(ticker)` -/
  asset : Option Asset
deriving DecidableEq, Repr

/-- The `ta`-library indicator values (trading_strategy.py:148-158).  These
are outputs of an external numerical library, so the embedding takes them
as inputs (the indicator oracle); `macd_diff` and the long-horizon MACD
values of lines 173-181 are computed by the source but feed only log
statements, so they are omitted. -/
structure Features where
  rsi_5m : ℚ
  rsi_1m_last : ℚ
  rsi_1m_prev : ℚ
  bb_lower : ℚ
  stoch_k : ℚ
  stoch_d : ℚ
  stoch_k_prev : ℚ
  macd_val : ℚ
  adx_val : ℚ
  atr : ℚ
deriving DecidableEq, Repr

/-- The fifteen buy-condition reason messages (trading_strategy.py:316-332),
in list order. -/
inductive BuyReason
  /-- "평단 하락 또는 강한 시그널 진입 허용" -/
  | priceDropOrSignal
  /-- "부분 익절 후 1% 이내 또는 강한 시그널 재진입" -/
  | psReentryNear
  /-- "부분 익절 후 +2% 이상 상승 → 우상향 추세 재진입" -/
  | psUptrend
  /-- "부분 익절 후 비중 회복 → 우상향 추세 재진입" -/
  | psFollowUp
  /-- "부분 익절 후 비중 회복 매수" -/
  | psRecover
  /-- "비중 50% 미만 → 추가 매수 허용" -/
  | lowVolTopUp
  /-- "재매수 허용 조건" -/
  | rebuyOversold
  /-- "ADX 25 이상 + MACD 상승" -/
  | adxMacd
  /-- "연속 손절 후 재매수 허용" -/
  | lossStreakRebuy
  /-- "강제 매수 조건" -/
  | forcedRebuy
  /-- "천천히 반등 매수" -/
  | slowRebound
  /-- "볼린저 하단 반등" -/
  | bbRebound
  /-- "복합 조건 매수" -/
  | comboBuy
  /-- "스토캐스틱 반등 매수" -/
  | stochRebound
  /-- "하락장 반등 매수" -/
  | bearRebound
deriving DecidableEq, Repr

/-- The six sell-condition reason messages (trading_strategy.py:436-483),
in list order.  `atrStop` carries the stop price interpolated into its
f-string message. -/
inductive SellReason
  /-- "최근 15개 캔들 최저가 하회 → 손절" -/
  | recentLowBreak
  /-- "트레일링 스탑 발동 → 익절" -/
  | trailingStop
  /-- "1분봉 급락 감지 → 부분 익절" -/
  | crash1m
  /-- "5분봉 하락 + 매도세 급증 감지 → 전체 매도" -/
  | sellSurge
  /-- "+1% 수익 도달 → 부분 익절" -/
  | fixedTp
  /-- f"손절 실행 (손절가: {stop_loss:.2f})" -/
  | atrStop (sl : ℚ)
deriving DecidableEq, Repr

/-- Every `message` value `trading_strategy` can return, one constructor
per return site.  `lossWait` carries the `limit_time // 60` value of its
f-string. -/
inductive Msg
  /-- "데이터 부족" -/
  | dataShortage
  /-- "매도 직후 재진입 차단" -/
  | sellBlock60
  /-- f"최근 손절 후 {limit_time // 60}분 대기 중 → 매수 금지" -/
  | lossWait (minutes : ℚ)
  /-- "투자 비중 초과 → 매수 금지" -/
  | overInvest
  /-- "급등 이후 진입 제한" -/
  | surgeGuard
  /-- "쿨다운 중 → 매수 금지" -/
  | cooldownBuy
  /-- one of the fifteen buy reasons -/
  | buyMsg (r : BuyReason)
  /-- "우상향 추세 → 매도 보류" -/
  | uptrendHold
  /-- "급락 중 매수벽 존재 → 매도 보류" -/
  | buyWallHold
  /-- "부분 익절 후 쿨다운 중 → 매도 보류" -/
  | psCooldownHold
  /-- "트레일링 스탑 조건이지만 손실 상태 → 매도 보류" -/
  | trailLossHold
  /-- one of the six sell reasons -/
  | sellMsg (r : SellReason)
  /-- "모든 매수 조건 미충족" -/
  | noSignal
deriving DecidableEq, Repr

/-- The decision dictionary returned by `trading_strategy`.  An `Option`
field is `none` when the corresponding key is absent from the returned
dict (`sellFrac` models the `sell_ratio` key, `investFrac` the
`investment_ratio` key). -/
structure Decision where
  signal : String
  message : Msg
  stop_loss : Option ℚ
  take_profit : Option ℚ
  sellFrac : Option ℚ
  investFrac : Option ℚ
deriving DecidableEq, Repr

/-- A decision with only `signal` and `message` keys. -/
def mkHold (s : String) (m : Msg) : Decision := ⟨s, m, none, none, none, none⟩

/-- Outcome of one source section of `trading_strategy`: either an early
`return` with a decision, or control falling through to the next section
with the (possibly mutated) context. -/
inductive PhaseOut
  | done (d : Decision) (ctx : Ctx)
  | cont (ctx : Ctx)
deriving DecidableEq, Repr

/-- `settings.MAX_TOTAL_INVEST` -/
def MAX_TOTAL_INVEST : ℚ := 1500000

/-- `settings.MAX_INVEST_PER_TICKER_RATIO` -/
def maxInvestPerTickerFrac : ℚ := 0.3

/-- `get_partial_sell_ratio` (trading_strategy.py:117): the step table of
partial-exit fractions keyed on the partial-sell count. -/
def stepSellFrac (count : ℕ) : ℚ :=
  if count = 0 then 0.4
  else if count = 1 then 0.3
  else if count = 2 then 0.1
  else 0.1

/-- First match of a condition list (the Python `for cond, msg in list:`
loop with first-match-wins). -/
def firstMatch {α : Type} : List (Bool × α) → Option α
  | [] => none
  | (b, m) :: rest => if b then some m else firstMatch rest

/-- The values `trading_strategy` derives from the processed frames and the
account before its buy/sell sections (trading_strategy.py:139-198 and the
frame reads of the sell section). -/
structure Deriv where
  /-- `df_5m['close'].iloc[-1]` -/
  latest_close : ℚ
  /-- `buy_price` after the `None → latest_close` default of line 143 -/
  bp : ℚ
  orderbook_strength : ℚ
  bullish_candles : ℕ
  volume_spike : Bool
  recent_low : ℚ
  is_bullish : Bool
  rsi_1m_drop : Bool
  is_breaking_1m_support : Bool
  /-- `df_5m['low'].rolling(15).min().iloc[-1]` -/
  min15_low : ℚ
  /-- `df_5m['close'].iloc[-2]` -/
  prev_close_5m : ℚ
  /-- `df_5m['open'].iloc[-1]` -/
  last_open_5m : ℚ
  /-- `df_orderbook['sell_volume'].iloc[-5:].mean()` -/
  ob_sell_mean5 : ℚ
  /-- `df_orderbook['sell_volume'].mean()` -/
  ob_sell_mean : ℚ
  /-- `df_orderbook['buy_volume'].iloc[-1]` -/
  ob_buy_last : ℚ
  /-- `df_orderbook['buy_volume'].mean()` -/
  ob_buy_mean : ℚ
  /-- `df_5m['close'].iloc[-6]` -/
  close_m6 : ℚ
  /-- the ticker balance of the account snapshot (line 186) -/
  balance : ℚ
deriving DecidableEq, Repr

/-- Computes `Deriv` from the processed frames in source order; the one
possible failure is the `IndexError` of line 160 (`.iloc[-1]` of the
`buy_volume` column) when the processed order-book frame has no rows —
that access is not covered by the bar-count guard of line 136. -/
def mkDeriv (d1 d5 : List CandleRow) (obP : List ObRow) (f : Features)
    (env : Env) (buyPrice0 : Option ℚ) : Except String Deriv := do
  let closes5 := d5.map (·.cl)
  let opens5 := d5.map (·.op)
  let lows5 := d5.map (·.lo)
  let closes1 := d1.map (·.cl)
  let lows1 := d1.map (·.lo)
  let obBuy := obP.map (·.buy_volume)
  let obSell := obP.map (·.sell_volume)
  let latest_close ← ilocNeg 1 closes5
  -- line 140 is numpy float division; the `np.isnan` replacement of line
  -- 141 can only trigger on a float 0/0, which exact arithmetic never
  -- produces, so it is the identity here
  let orderbook_strength := sumL obBuy / (sumL obSell + 1 / 1000000000)
  let bp := buyPrice0.getD latest_close
  let last_open ← ilocNeg 1 opens5
  let bullish_candles : ℕ :=
    (d5.drop (d5.length - 3)).countP (fun r => decide (r.op < r.cl))
  let ob_buy_last ← ilocNeg 1 obBuy
  let volume_spike : Bool := decide (meanL obBuy * 2 < ob_buy_last)
  let recent_low := minL (lastN 20 lows5)
  let is_bullish : Bool := decide (last_open < latest_close)
  let rsi_1m_drop : Bool :=
    decide (f.rsi_1m_last < 30) && decide (f.rsi_1m_last < f.rsi_1m_prev)
  let c1last ← ilocNeg 1 closes1
  let is_breaking : Bool := decide (c1last < minL (lastN 5 lows1.dropLast))
  let close_m6 ← ilocNeg 6 closes5
  let prev_close ← ilocNeg 2 closes5
  let min15_low := minL (lastN 15 lows5)
  let balance := match env.asset with
    | some a => a.balance
    | none => 0
  return { latest_close := latest_close, bp := bp,
           orderbook_strength := orderbook_strength,
           bullish_candles := bullish_candles, volume_spike := volume_spike,
           recent_low := recent_low, is_bullish := is_bullish,
           rsi_1m_drop := rsi_1m_drop, is_breaking_1m_support := is_breaking,
           min15_low := min15_low, prev_close_5m := prev_close,
           last_open_5m := last_open, ob_sell_mean5 := meanL (lastN 5 obSell),
           ob_sell_mean := meanL obSell, ob_buy_last := ob_buy_last,
           ob_buy_mean := meanL obBuy, close_m6 := close_m6,
           balance := balance }

/-- Lines 269-378 of the buy section (exposure/anti-chase checks, the buy
cooldown, the fifteen ordered buy conditions, and the context mutations of
a matched buy), parameterized by the context after the possible loss-streak
reset of line 266 and by the entry flags computed at lines 167-228. -/
def buy_phase_rest (dv : Deriv) (f : Features) (env : Env)
    (is_morning is_evening is_ps_reentry is_ps_reentry_uptrend
     is_ps_reentry_follow_up is_low_volume_entry : Bool) (ctx1 : Ctx) :
    PhaseOut :=
  let lc := dv.latest_close
  let bp := dv.bp
  let obStr := dv.orderbook_strength
  let cooldown_time : ℚ := min (max 120 (f.atr * 25)) 600
  if MAX_TOTAL_INVEST * maxInvestPerTickerFrac ≤ dv.balance * lc then
          .done (mkHold "" .overInvest) ctx1
        -- line 272: numpy float division; a zero `close_m6` yields float
        -- inf in the source, a case exact arithmetic does not model
        else if 0.05 < lc / dv.close_m6 - 1 then
          .done (mkHold "" .surgeGuard) ctx1
        else
          let ignore_price_limit : Bool :=
            ((decide (f.rsi_5m < 35) && decide (0 < f.macd_val) && dv.volume_spike && decide (1.1 < obStr)) ||
             (decide (f.stoch_d < f.stoch_k) && decide (20 < f.stoch_k) && decide (1.2 < obStr) && decide (-0.05 < f.macd_val)) ||
             (decide (25 < f.adx_val) && decide (0 < f.macd_val) && decide (50 < f.rsi_5m) && decide (1.1 < obStr)) ||
             (decide (25 < f.adx_val) && decide (0 < f.macd_val) && decide (2 ≤ dv.bullish_candles) && decide (1.1 < obStr)) ||
             (decide (env.volHeldFrac < 0.3) && decide (f.rsi_5m < 40) && decide (0 < f.macd_val) && decide (20 < f.adx_val)) ||
             (dv.rsi_1m_drop && decide (f.rsi_5m < 30) && decide (0 < f.macd_val))) ||
            is_morning || is_evening
          let ignore_cooldown : Bool :=
            (decide (25 < f.adx_val) && decide (0 < f.macd_val) && decide (50 < f.rsi_5m) && decide (1.1 < obStr)) ||
            (dv.rsi_1m_drop && decide (f.rsi_5m < 30) && decide (0 < f.macd_val)) ||
            (dv.volume_spike && decide (0 < f.macd_val) && decide (2 ≤ dv.bullish_candles))
          let cooldownBlocked : Bool :=
            (match ctx1.last_buy_time with
             | some t => decide (env.nowT - t < cooldown_time)
             | none => false) &&
            !(ignore_cooldown || is_morning || is_evening)
          if cooldownBlocked then .done (mkHold "" .cooldownBuy) ctx1
          else
            let buyConds : List (Bool × BuyReason) := [
              ((!is_ps_reentry && decide ((lc - bp) / bp < -0.015)) || ignore_price_limit, .priceDropOrSignal),
              ((is_ps_reentry && decide (lc ≤ bp * 1.01)) || ignore_price_limit, .psReentryNear),
              (is_ps_reentry_uptrend, .psUptrend),
              (is_ps_reentry_follow_up, .psFollowUp),
              (is_ps_reentry, .psRecover),
              (is_low_volume_entry, .lowVolTopUp),
              (!is_ps_reentry && decide ((lc - bp) / bp < -0.015) &&
                 decide (f.rsi_5m < 30) && decide (0 < f.macd_val) && dv.volume_spike, .rebuyOversold),
              (decide (25 < f.adx_val) && decide (0 < f.macd_val), .adxMacd),
              (decide (5 ≤ ctx1.consecutive_losses) && decide (f.rsi_5m < 25) &&
                 decide (0.1 < f.macd_val) && dv.volume_spike, .lossStreakRebuy),
              (decide (3 < ctx1.consecutive_losses) && decide (f.rsi_5m < 25) &&
                 decide (0 < f.macd_val), .forcedRebuy),
              (decide (f.rsi_5m < 35) && decide (lc ≤ f.bb_lower) &&
                 decide (2 ≤ dv.bullish_candles) && decide (obStr < 1.2), .slowRebound),
              (decide (lc ≤ f.bb_lower) && decide (f.rsi_5m < 35) && dv.volume_spike, .bbRebound),
              ((decide (f.rsi_5m < 35) && decide (lc ≤ f.bb_lower)) ||
                 (decide (1.3 < obStr) && decide (f.stoch_d < f.stoch_k)) ||
                 (dv.is_bullish && decide (-0.05 < f.macd_val)), .comboBuy),
              (decide (20 < f.stoch_k) && decide (10 < f.stoch_k - f.stoch_d) &&
                 decide (f.stoch_k_prev < f.stoch_k) && dv.volume_spike, .stochRebound),
              (!dv.is_bullish && decide (f.rsi_5m < 30) && decide (dv.recent_low < lc) &&
                 decide (f.stoch_k < 20), .bearRebound)]
            match firstMatch buyConds with
            | none => .cont ctx1
            | some reason =>
              -- lines 346-378: the context mutations of a matched buy
              let ctx2 := { ctx1 with last_buy_time := some env.nowT,
                                      peak_price_since_buy := some lc,
                                      psCount := 0 }
              let ctx3 := match env.asset with
                | some a =>
                  if 0 < a.avg_buy_price then
                    { ctx2 with avg_buy_price := some a.avg_buy_price }
                  else ctx2
                | none => ctx2
              let ctx4 := { ctx3 with
                            consecutive_losses := max 0 (ctx3.consecutive_losses - 2) }
              let investF : ℚ :=
                if is_ps_reentry then 0.1
                else max 0.1 (1 - (ctx4.consecutive_losses : ℚ) * 0.1)
              .done ⟨"buy", .buyMsg reason, none, none, none, some investF⟩ ctx4

/-- The buy section of `trading_strategy` (lines 183-378): entry guard,
the 60-second post-sell block, the post-loss wait (with loss-streak reset
on expiry), then `buy_phase_rest`. -/
def buy_phase (dv : Deriv) (f : Features) (env : Env) (pos : ℤ) (ctx : Ctx) :
    PhaseOut :=
  let lc := dv.latest_close
  let bp := dv.bp
  let obStr := dv.orderbook_strength
  let is_morning : Bool := decide (9 ≤ env.nowHour ∧ env.nowHour < 11)
  let is_evening : Bool := decide (20 ≤ env.nowHour ∧ env.nowHour ≤ 23)
  let is_low_volume_entry : Bool :=
    decide (pos = 1) && decide (env.volHeldFrac < 0.5) && decide (lc < bp * 0.985)
  let is_ps_reentry : Bool :=
    decide (0 < ctx.psCount) && decide (env.volHeldFrac < 1) && decide (lc < bp * 0.985)
  let is_ps_reentry_exception : Bool :=
    decide (0 < ctx.psCount) && decide (env.volHeldFrac < 1) &&
    decide (25 < f.adx_val) && decide (0 < f.macd_val) && dv.volume_spike
  let is_ps_reentry_follow_up : Bool :=
    decide (0 < ctx.psCount) && decide (env.volHeldFrac < 0.5) &&
    decide (25 < f.adx_val) && decide (0 < f.macd_val) &&
    decide (50 < f.rsi_5m) && decide (1.05 < obStr)
  let is_ps_reentry_uptrend : Bool :=
    decide (0 < ctx.psCount) && decide (bp * 1.02 < lc) &&
    decide (25 < f.adx_val) && decide (0 < f.macd_val) && decide (1.05 < obStr)
  if ¬(pos = 0 ∨ is_ps_reentry = true ∨ is_ps_reentry_exception = true ∨
       is_ps_reentry_follow_up = true ∨ is_ps_reentry_uptrend = true ∨
       is_low_volume_entry = true) then
    .cont ctx
  else
    -- lines 248-252: block a fresh entry within 60s of a sell
    let blk60 : Bool :=
      decide (dv.balance ≤ 0) && ctx.avg_buy_price.isSome &&
      (match ctx.last_sell_time with
       | some t => decide (env.nowT - t < 60)
       | none => false)
    if blk60 then .done (mkHold "" .sellBlock60) ctx
    else
      -- lines 258-267: post-loss wait, with loss-streak reset on expiry
      match ctx.last_sell_time with
      | some t =>
        let limit_time : ℚ := min (max 180 (f.atr * 30)) 600
        if env.nowT - t < limit_time then
          .done (mkHold "" (.lossWait ((⌊limit_time / 60⌋ : ℤ) : ℚ))) ctx
        else
          buy_phase_rest dv f env is_morning is_evening is_ps_reentry
            is_ps_reentry_uptrend is_ps_reentry_follow_up is_low_volume_entry
            (resetLoss ctx)
      | none =>
        buy_phase_rest dv f env is_morning is_evening is_ps_reentry
          is_ps_reentry_uptrend is_ps_reentry_follow_up is_low_volume_entry
          ctx

/-- The peak-price update of trading_strategy.py:396-402: raise the stored
post-entry peak to the current price when exceeded. -/
def peakUpd (lc : ℚ) (ctx : Ctx) : Ctx :=
  let prev_peak := ctx.peak_price_since_buy.getD lc
  let new_peak := max prev_peak lc
  if prev_peak < new_peak then { ctx with peak_price_since_buy := some new_peak }
  else ctx

/-- The sell section of `trading_strategy` (lines 381-548): peak tracking,
the strong-uptrend / buy-wall / partial-cooldown holds, the
trailing-stop-at-a-loss guard, the six ordered sell conditions, and the
context mutations of a matched exit.  The `buy_price is None` restore of
lines 382-388 is unreachable (line 143 already defaulted it) and is
omitted. -/
def sell_phase (dv : Deriv) (f : Features) (env : Env) (fee : ℚ) (pos : ℤ)
    (ctx : Ctx) : PhaseOut :=
  if ¬ pos = 1 then .cont ctx
  else
    let lc := dv.latest_close
    let bp := dv.bp
    let sl_tp := calculate_stop_loss_take_profit bp (some f.atr) fee
    let stop_loss := sl_tp.1
    let take_profit := sl_tp.2
    let fixed_take_profit := calculate_fixed_take_profit bp fee
    let net_profit := lc * (1 - fee) - bp * (1 + fee)
    let expected_profit := net_profit
    -- line 394: the pre-update peak, as used by every condition below
    let peak_price := ctx.peak_price_since_buy.getD lc
    let ctx1 := peakUpd lc ctx
    let is_critical_drop_price : Bool := decide (lc < dv.min15_low * 0.99)
    let price_is_falling : Bool := decide (lc < dv.prev_close_5m)
    let is_red_candle : Bool := decide (lc < dv.last_open_5m)
    let is_critical_drop_orderbook : Bool :=
      price_is_falling && is_red_candle &&
      (decide (dv.ob_sell_mean * 3 < dv.ob_sell_mean5) ||
       decide (dv.orderbook_strength < 0.6))
    let is_1m_crash : Bool :=
      (dv.rsi_1m_drop || dv.is_breaking_1m_support) && decide (bp * 0.001 < net_profit)
    -- lines 420-422: strong-uptrend hold, before any sell condition
    if 0 < f.macd_val ∧ 25 < f.adx_val ∧ bp * 1.005 < lc then
      .done (mkHold "" .uptrendHold) ctx1
    else
      let buy_wall : Bool := decide (dv.ob_buy_mean * 2 < dv.ob_buy_last)
      if is_critical_drop_orderbook && buy_wall then
        .done (mkHold "" .buyWallHold) ctx1
      else if (match ctx.psTime with
               | some t => decide (env.nowT - t < 180)
               | none => false) &&
              !(is_critical_drop_price || is_critical_drop_orderbook || is_1m_crash) then
        .done (mkHold "" .psCooldownHold) ctx1
      else
        -- lines 436-483: (condition, full-exit?, reason) in priority order
        let sellConds : List (Bool × (Bool × SellReason)) := [
          (decide (lc < dv.min15_low * 0.99), (true, .recentLowBreak)),
          (decide (bp * 1.015 < peak_price) && decide (lc < peak_price * 0.988) &&
             decide (0 < expected_profit), (true, .trailingStop)),
          ((dv.rsi_1m_drop || dv.is_breaking_1m_support) &&
             decide (bp * 0.001 < net_profit), (false, .crash1m)),
          (price_is_falling && is_red_candle &&
             (decide (dv.ob_sell_mean * 3 < dv.ob_sell_mean5) ||
              decide (dv.orderbook_strength < 0.5)) &&
             decide (bp * 0.002 < net_profit) &&
             !(decide (0 < f.macd_val) && decide (25 < f.adx_val) &&
               decide (bp * 1.005 < lc)), (true, .sellSurge)),
          (decide (fixed_take_profit ≤ lc) &&
             (match ctx.psTime with
              | some t => decide (180 < env.nowT - t)
              | none => true), (false, .fixedTp)),
          (decide (lc < stop_loss) &&
             (decide (max (bp * 0.01) (f.atr * 2) < |lc - bp|) ||
              decide (f.atr * 1.5 < |lc - bp|)), (true, .atrStop stop_loss))]
        -- lines 486-488: trailing-stop retracement at a loss → hold
        if bp * 1.015 < peak_price ∧ lc < peak_price * 0.988 ∧ expected_profit ≤ 0 then
          .done (mkHold "" .trailLossHold) ctx1
        else
          match firstMatch sellConds with
          | none => .cont ctx1
          | some (isFull, reason) =>
            -- lines 495-497: pop peak, partial-sell time and count
            let ctx2 := { ctx1 with peak_price_since_buy := none,
                                    psTime := none, psCount := 0 }
            if isFull then
              let ctx3 := match reason with
                | .trailingStop => addProfit ((lc - bp) * (1 - fee)) ctx2
                | _ => ctx2
              let ctx4 :=
                if 0 < expected_profit then ctx3 else updateLoss env.nowT ctx3
              .done ⟨"sell", .sellMsg reason, some stop_loss, some take_profit,
                     none, none⟩ ctx4
            else
              -- line 520 reads the count after the pop of line 497, so it
              -- is always 0 here
              let pc := ctx2.psCount
              let frac := stepSellFrac pc
              let ctx3 := addProfit ((lc - bp) * frac * (1 - fee)) ctx2
              let ctx4 := { ctx3 with psCount := pc + 1,
                                      psTime := some env.nowT,
                                      consecutive_losses :=
                                        max 0 (ctx3.consecutive_losses - 2),
                                      peak_price_since_buy := none }
              .done ⟨"sell_partial", .sellMsg reason, some stop_loss,
                     some take_profit, some frac, none⟩ ctx4

/-- The inputs of one `trading_strategy` call: the four raw frames, the
`position` / `buy_price` / `fee_rate` arguments, the indicator oracle and
the external environment. -/
structure In where
  df_1m : List CandleRowO
  df_5m : List CandleRowO
  df_15m : List CandleRowO
  df_orderbook : List ObRowO
  pos : ℤ
  buyPrice0 : Option ℚ
  fee : ℚ
  f : Features
  env : Env
deriving DecidableEq, Repr

/-- `trading_strategy` (trading_strategy.py:127-551).  Returns the decision
dict and the mutated per-ticker context, or the uncaught Python exception
as an error string. -/
def trading_strategy (inp : In) (ctx : Ctx) : Except String (Decision × Ctx) :=
  -- line 129: the entry log statement evaluates `df_5m['close'].iloc[-1]`
  -- on the raw frame before any guard
  if inp.df_5m.isEmpty then
    .error "IndexError: single positional indexer is out-of-bounds"
  else
    let d1 := processCandles inp.df_1m
    let d5 := processCandles inp.df_5m
    let d15 := processCandles inp.df_15m
    let obP := processOb inp.df_orderbook
    -- line 136: bar-count guard on the processed frames
    if d1 = [] ∨ d1.length < 14 ∨ d5.length < 200 ∨ d15.length < 100 then
      .ok (mkHold "" .dataShortage, ctx)
    else
      match mkDeriv d1 d5 obP inp.f inp.env inp.buyPrice0 with
      | .error e => .error e
      | .ok dv =>
        match buy_phase dv inp.f inp.env inp.pos ctx with
        | .done d ctx1 => .ok (d, ctx1)
        | .cont ctx1 =>
          match sell_phase dv inp.f inp.env inp.fee inp.pos ctx1 with
          | .done d ctx2 => .ok (d, ctx2)
          | .cont ctx2 => .ok (mkHold "" .noSignal, ctx2)

/-! ## trade.py — the open-orders sweep (`cancel_old_orders`) -/

/-- An open order as returned by `get_open_orders`: its uuid and its
`created_at` timestamp, already parsed to epoch seconds (`none` models the
`ValueError` branch of trade.py:236-239). -/
structure OpenOrder where
  uuid : String
  created_at : Option ℚ
deriving DecidableEq, Repr

/-- The exchange as seen by the sweep: the result of the k-th
`get_open_orders` call and the `state` field of the k-th `cancel_order`
result (`none` models the empty dict a failed cancel returns).  Both
wrapped calls already absorb their own bounded HTTP-429 retries and fail
soft, so the oracle gives their final value. -/
structure SweepEnv where
  openOrdersAt : ℕ → List OpenOrder
  cancelResultAt : ℕ → Option String

/-- The observable effects of a sweep: how many open-orders queries ran
and which uuids were sent a cancel request, in order. -/
structure SweepSt where
  queries : ℕ
  cancels : List String
deriving DecidableEq, Repr

/-- One `get_open_orders(market)` call. -/
def getOpenOrders (env : SweepEnv) (s : SweepSt) : List OpenOrder × SweepSt :=
  (env.openOrdersAt s.queries, { s with queries := s.queries + 1 })

/-- One `cancel_order(uuid)` call (its ≤3 internal delete retries are
absorbed by the oracle result). -/
def cancelOrderCall (env : SweepEnv) (u : String) (s : SweepSt) :
    Option String × SweepSt :=
  (env.cancelResultAt s.cancels.length, { s with cancels := s.cancels ++ [u] })

/-- The confirmation loop of trade.py:254-262: up to five re-queries;
`true` means the sweep returns early because no open order remains. -/
def recheckLoop (env : SweepEnv) : ℕ → SweepSt → Bool × SweepSt
  | 0, s => (false, s)
  | n + 1, s =>
    let q := getOpenOrders env s
    if q.1 = [] then (true, q.2)
    else recheckLoop env n q.2

/-- The per-order loop of `cancel_old_orders` (trade.py:230-265). -/
def cancel_old_orders_go (env : SweepEnv) (now max_wait : ℚ) :
    List OpenOrder → SweepSt → SweepSt
  | [], s => s
  | o :: rest, s =>
    -- lines 252-262: the sleep and confirmation passes run for every
    -- order that was not skipped by a `continue`
    let next : SweepSt → SweepSt := fun s2 =>
      let r := recheckLoop env 5 s2
      if r.1 then r.2 else cancel_old_orders_go env now max_wait rest r.2
    match o.created_at with
    | none => cancel_old_orders_go env now max_wait rest s
    | some ts =>
      if max_wait < now - ts then
        let c := cancelOrderCall env o.uuid s
        match c.1 with
        | some st =>
          if st = "cancel" then next c.2
          else cancel_old_orders_go env now max_wait rest c.2
        | none => cancel_old_orders_go env now max_wait rest c.2
      else next s

/-- `cancel_old_orders` (trade.py:220): query the open orders once; if
there are none (or the query failed soft to `[]`), log and return without
any cancellation attempt; otherwise run the per-order loop. -/
def cancel_old_orders (env : SweepEnv) (now max_wait : ℚ) (s : SweepSt) :
    SweepSt :=
  let q := getOpenOrders env s
  if q.1 = [] then q.2
  else cancel_old_orders_go env now max_wait q.1 q.2

/-! ## Theorems settling the claims -/

/-- C5: the volume-weighted average fill price of an order equals
Σ price·volume / Σ volume over its trade fills, and with zero fills (an
empty trades list, or fills whose volumes sum to zero) `get_avg_buy_price`
returns the distinguished unknown value `none`, never `0`. -/
theorem spec_c5_avg_fill_price (trades : List TradeFill) :
    (get_avg_buy_price trades = none ↔ trades = [] ∨ totalVolume trades = 0) ∧
    (trades ≠ [] → totalVolume trades ≠ 0 →
      get_avg_buy_price trades = some (totalCost trades / totalVolume trades)) := by
  unfold get_avg_buy_price
  constructor
  · by_cases h : trades = [] <;> by_cases hv : totalVolume trades = 0 <;>
      simp [h, hv]
  · intro h1 h2
    simp [h1, h2]

unseal Rat.add Rat.mul Rat.sub Rat.inv Rat.ofScientific in
/-- Witness for C5 at a two-fill order. -/
theorem spec_c5_avg_fill_price_witness :
    get_avg_buy_price [⟨100, 2⟩, ⟨110, 2⟩] =
      some (totalCost [⟨100, 2⟩, ⟨110, 2⟩] / totalVolume [⟨100, 2⟩, ⟨110, 2⟩]) ∧
    totalCost [⟨100, 2⟩, ⟨110, 2⟩] / totalVolume [⟨100, 2⟩, ⟨110, 2⟩] = 105 :=
  ⟨(spec_c5_avg_fill_price [⟨100, 2⟩, ⟨110, 2⟩]).2 (by decide) (by decide),
   by decide⟩

/-- C6: when the open-orders query returns no orders (nothing open, or the
query failed soft to `[]`), the sweep makes no cancellation attempt and
returns normally; hence two sweeps in a row against an exchange with no
open orders make no cancellation attempt at all.  (`cancel_old_orders` is
a total function: the no-raise part of the claim.) -/
theorem spec_c6_sweep_idempotent (env : SweepEnv) (now max_wait : ℚ)
    (s : SweepSt) (hq : env.openOrdersAt s.queries = []) :
    cancel_old_orders env now max_wait s =
      { s with queries := s.queries + 1 } ∧
    ((∀ n, env.openOrdersAt n = []) →
      (cancel_old_orders env now max_wait
        (cancel_old_orders env now max_wait s)).cancels = s.cancels) := by
  constructor
  · unfold cancel_old_orders getOpenOrders
    simp [hq]
  · intro hall
    unfold cancel_old_orders getOpenOrders
    simp [hall]

/-- Witness for C6 at a concrete exchange with no open orders. -/
theorem spec_c6_sweep_idempotent_witness :
    cancel_old_orders ⟨fun _ => [], fun _ => none⟩ 1000 30 ⟨0, []⟩ =
      { queries := 1, cancels := [] } ∧
    (cancel_old_orders ⟨fun _ => [], fun _ => none⟩ 1000 30
      (cancel_old_orders ⟨fun _ => [], fun _ => none⟩ 1000 30 ⟨0, []⟩)).cancels = [] := by
  have h := spec_c6_sweep_idempotent ⟨fun _ => [], fun _ => none⟩ 1000 30 ⟨0, []⟩ rfl
  exact ⟨h.1, h.2 (fun _ => rfl)⟩

/-- C7: on the sell path the submitted volume never exceeds the held
balance that is re-queried immediately before submission: whenever
`sell_market` or `sell_limit` actually submits order parameters, the
submitted volume is the requested one and is at most `available_volume`
(the request is rejected otherwise), so an over-selling order is never
sent. -/
theorem spec_c7_sell_capped_to_balance (market : String)
    (price volume avail : ℚ) (p q : OrderParams)
    (hm : sell_market market volume avail = some p)
    (hl : sell_limit market price volume avail = some q) :
    p.volume = volume ∧ p.volume ≤ avail ∧
    q.volume = volume ∧ q.volume ≤ avail := by
  unfold sell_market at hm
  unfold sell_limit at hl
  by_cases h1 : market = "" ∨ volume ≤ 0
  · simp [h1] at hm
  · by_cases h2 : avail < volume
    · simp [h1, h2] at hm
    · by_cases h3 : market = "" ∨ price ≤ 0
      · simp [h3] at hl
      · simp [h1, h2, h3] at hm hl
        rw [← hm, ← hl]
        exact ⟨rfl, not_lt.mp h2, rfl, not_lt.mp h2⟩

unseal Rat.add Rat.mul Rat.sub Rat.inv Rat.ofScientific in
/-- Witness for C7 at a concrete submitted sell. -/
theorem spec_c7_sell_capped_to_balance_witness :
    (⟨"KRW-BTC", "ask", "market", 1, none⟩ : OrderParams).volume ≤ 2 ∧
    (⟨"KRW-BTC", "ask", "limit", 1, some 100⟩ : OrderParams).volume ≤ 2 :=
  have h := spec_c7_sell_capped_to_balance "KRW-BTC" 100 1 2
    ⟨"KRW-BTC", "ask", "market", 1, none⟩
    ⟨"KRW-BTC", "ask", "limit", 1, some 100⟩ (by decide) (by decide)
  ⟨h.2.1, h.2.2.2⟩

/-- C10: for every positive entry price and the default fee rate 0.0005,
`calculate_stop_loss_take_profit` brackets the entry: the stop-loss is
strictly below and the take-profit strictly above the entry price, for
every `atr` argument including `None` and non-positive values (which are
coerced to `buy_price · 0.005`). -/
theorem spec_c10_stop_take_bracket (bp : ℚ) (atr : Option ℚ) (hbp : 0 < bp) :
    (calculate_stop_loss_take_profit bp atr 0.0005).1 < bp ∧
    bp < (calculate_stop_loss_take_profit bp atr 0.0005).2 := by
  unfold calculate_stop_loss_take_profit
  set a := match atr with
    | none => bp * 0.005
    | some v => if v ≤ 0 then bp * 0.005 else v with ha
  have hapos : 0 < a := by
    rw [ha]
    match atr with
    | none => simpa using by nlinarith
    | some v =>
      by_cases hv : v ≤ 0
      · simpa [hv] using by nlinarith
      · simpa [hv] using lt_of_not_le hv
  set m : ℚ := if bp < 5000 then 5 else 3 with hm
  have hmpos : 0 < m := by
    rw [hm]; split <;> norm_num
  constructor
  · have h1 : bp - a * m < bp := by nlinarith
    have h2 : bp * (1 - 0.02) < bp := by nlinarith
    have h3 : max (bp - a * m) (bp * (1 - 0.02)) < bp := max_lt h1 h2
    have h4 : 0 < max (bp - a * m) (bp * (1 - 0.02)) := by
      have := le_max_right (bp - a * m) (bp * (1 - 0.02))
      nlinarith
    nlinarith [h3, h4]
  · have h5 : bp * (1 + 0.005) ≤ max (bp + a * 4) (bp * (1 + 0.005)) :=
      le_max_right _ _
    nlinarith [h5]

/-- Witness for C10 at entry price 1000 and `atr = None`. -/
theorem spec_c10_stop_take_bracket_witness :
    (0 : ℚ) < 1000 ∧
    ((calculate_stop_loss_take_profit 1000 none 0.0005).1 < 1000 ∧
     1000 < (calculate_stop_loss_take_profit 1000 none 0.0005).2) :=
  ⟨by norm_num, spec_c10_stop_take_bracket 1000 none (by norm_num)⟩

/-! ### Concrete fixtures for closed evaluations -/

/-- A complete all-ones candle row. -/
def rowO1 : CandleRowO := ⟨some 1, some 1, some 1, some 1, some 1⟩

/-- A complete all-ones order-book row. -/
def obRowO1 : ObRowO := ⟨some 1, some 1, some 1⟩

/-- Neutral indicator values: nothing oversold, no trend, ATR 1. -/
def featN : Features := ⟨50, 50, 50, 1, 50, 50, 50, 0, 0, 1⟩

/-- A neutral environment: noon, holdings fraction 2 (kills the
low-exposure entries), no account asset. -/
def envN : Env := ⟨1000000, 12, 2, none⟩

/-- An empty per-ticker context. -/
def ctxN : Ctx := ⟨none, 0, none, none, none, 0, none, 0, 0⟩

/-- C1 (amended): whenever the raw five-minute frame is nonempty (so the
entry log statement of line 129 can read its last close) and any required
timeframe has fewer bars than its configured minimum after forward-fill
and NaN-drop (fewer than 14 one-minute, 200 five-minute or 100
fifteen-minute bars, or an empty one-minute frame), `trading_strategy`
returns signal none (the empty string) with the insufficient-data message
and the context unchanged — the same result for every context and every
position, so the context is neither read nor written.  The claim as frozen
also covers an empty raw five-minute frame; there the source raises
`IndexError` instead (see the counterexample). -/
theorem spec_c1_insufficient_data (inp : In) (ctx : Ctx)
    (h5 : inp.df_5m ≠ [])
    (hshort : processCandles inp.df_1m = [] ∨
      (processCandles inp.df_1m).length < 14 ∨
      (processCandles inp.df_5m).length < 200 ∨
      (processCandles inp.df_15m).length < 100) :
    trading_strategy inp ctx = .ok (mkHold "" .dataShortage, ctx) := by
  unfold trading_strategy
  rw [if_neg (by simp [h5]), if_pos hshort]

/-- Witness for C1 at a five-bar five-minute frame. -/
theorem spec_c1_insufficient_data_witness :
    trading_strategy
      ⟨[rowO1], List.replicate 5 rowO1, [rowO1], [obRowO1], 1, some 100,
       0.0005, featN, envN⟩ ctxN = .ok (mkHold "" .dataShortage, ctxN) :=
  spec_c1_insufficient_data _ ctxN (by decide) (by decide)

/-- Counterexample for C1 as frozen: with an empty five-minute frame (zero
bars, so "fewer than 200 five-minute bars" holds) `trading_strategy` does
not return an insufficient-data decision — the entry log statement of line
129 raises `IndexError` before the guard of line 136 runs. -/
theorem spec_c1_counterexample :
    trading_strategy
      ⟨List.replicate 14 rowO1, [], List.replicate 100 rowO1, [obRowO1], 0,
       none, 0.0005, featN, envN⟩ ctxN =
      .error "IndexError: single positional indexer is out-of-bounds" := by
  rfl

/-- The peak update never touches the loss counter. -/
theorem peakUpd_losses (lc : ℚ) (c : Ctx) :
    (peakUpd lc c).consecutive_losses = c.consecutive_losses := by
  simp only [peakUpd]
  split <;> rfl

/-- The peak update never touches the last-sell timestamp. -/
theorem peakUpd_last_sell (lc : ℚ) (c : Ctx) :
    (peakUpd lc c).last_sell_time = c.last_sell_time := by
  simp only [peakUpd]
  split <;> rfl

/-- C4 (amended): the strong-uptrend override suppresses every exit
condition, the stop-losses included: whenever momentum and trend-strength
confirm (`macd_val > 0`, `adx_val > 25`) and the current price exceeds the
entry price by the configured 0.5% margin, the HOLDING evaluation returns
signal none with the uptrend-hold message before any sell condition is
consulted, and only updates the tracked peak (loss counters untouched). -/
theorem spec_c4_uptrend_override (dv : Deriv) (f : Features) (env : Env)
    (fee : ℚ) (ctx : Ctx) (hmacd : 0 < f.macd_val) (hadx : 25 < f.adx_val)
    (hmargin : dv.bp * 1.005 < dv.latest_close) :
    sell_phase dv f env fee 1 ctx =
      .done (mkHold "" .uptrendHold) (peakUpd dv.latest_close ctx) ∧
    (peakUpd dv.latest_close ctx).consecutive_losses = ctx.consecutive_losses := by
  constructor
  · unfold sell_phase
    rw [if_neg (by norm_num), if_pos ⟨hmacd, hadx, hmargin⟩]
  · exact peakUpd_losses _ _

unseal Rat.add Rat.mul Rat.sub Rat.inv Rat.ofScientific in
/-- Witness for C4 at a concrete holding 10% above entry in a confirmed
uptrend. -/
theorem spec_c4_uptrend_override_witness :
    sell_phase
      ⟨1100, 1000, 1, 0, false, 900, true, false, false, 1000, 1100, 1100,
       1, 1, 1, 1, 1100, 0⟩
      ⟨50, 50, 50, 1, 50, 50, 50, 1, 30, 1⟩ envN 0.0005 1 ctxN =
      .done (mkHold "" .uptrendHold) (peakUpd 1100 ctxN) :=
  (spec_c4_uptrend_override _ _ envN 0.0005 ctxN (by norm_num) (by norm_num)
    (by norm_num)).1

/-- A candle row of the C4 counterexample: lows at 2000, close 1979, so
the recent-low stop condition `close < rolling15Min·0.99` holds. -/
def rowC4 : CandleRowO := ⟨some 1979, some 2005, some 2000, some 1979, some 1⟩

set_option maxRecDepth 100000 in
unseal Rat.add Rat.mul Rat.sub Rat.inv Rat.ofScientific in
/-- Counterexample for C4 as frozen: a HOLDING evaluation in a strong
uptrend (MACD 1 > 0, ADX 30 > 25, price 1979 > entry 1000 · 1.005) in
which the recent-low stop-loss condition holds numerically
(1979 < 2000·0.99), yet `trading_strategy` returns signal none with the
uptrend-hold message — the stop-loss does **not** still fire. -/
theorem spec_c4_counterexample :
    trading_strategy
      ⟨List.replicate 14 rowO1, List.replicate 200 rowC4,
       List.replicate 100 rowO1, [obRowO1], 1, some 1000, 0.0005,
       ⟨50, 50, 50, 1, 50, 50, 50, 1, 30, 1⟩, envN⟩ ctxN =
      .ok (mkHold "" .uptrendHold, ctxN) ∧
    (1979 : ℚ) < 2000 * 0.99 := by
  constructor
  · rfl
  · norm_num

/-- C2 (amended): (1) a trailing-stop full exit is emitted only when the
fee-adjusted expected profit is strictly positive — the trailing-sell
condition itself conjoins `expected_profit > 0`, so no trailing-stop sell
ever fires at a loss; and (2) whenever the retracement holds at a loss
(peak above entry·1.015, price below peak·0.988, expected profit ≤ 0) the
HOLDING evaluation of the sell section returns signal none with one of its
hold messages.  (As frozen the claim asserts (2) for every `trading_strategy`
call with `position = 1`; a re-entry buy condition can instead return a
`buy` decision first — see the counterexample.) -/
theorem spec_c2_no_trailing_stop_at_loss (dv : Deriv) (f : Features)
    (env : Env) (fee : ℚ) (pos : ℤ) (ctx : Ctx) :
    (∀ d ctx1, sell_phase dv f env fee pos ctx = .done d ctx1 →
      d.message = .sellMsg .trailingStop →
      0 < dv.latest_close * (1 - fee) - dv.bp * (1 + fee)) ∧
    (pos = 1 →
      dv.bp * 1.015 < ctx.peak_price_since_buy.getD dv.latest_close →
      dv.latest_close < ctx.peak_price_since_buy.getD dv.latest_close * 0.988 →
      dv.latest_close * (1 - fee) - dv.bp * (1 + fee) ≤ 0 →
      ∃ m ctx1, sell_phase dv f env fee pos ctx = .done (mkHold "" m) ctx1 ∧
        (m = .uptrendHold ∨ m = .buyWallHold ∨ m = .psCooldownHold ∨
         m = .trailLossHold)) := by
  constructor
  · intro d ctx1 h hm
    simp only [sell_phase] at h
    by_cases hpos : pos = 1
    · subst hpos
      rw [if_neg (by simp)] at h
      split_ifs at h with h1 h2 h3 h4 hexp
      · cases h; simp [mkHold] at hm
      · cases h; simp [mkHold] at hm
      · cases h; simp [mkHold] at hm
      · cases h; simp [mkHold] at hm
      · exact hexp
      · split at h
        · cases h
        · next isFull reason heq =>
          split_ifs at h with hfull
          · cases h
            simp only [Msg.sellMsg.injEq] at hm
            subst hm
            simp only [firstMatch] at heq
            split_ifs at heq with c1 c2 c3 c4 c5 c6 <;>
              simp only [Option.some.injEq, Prod.mk.injEq] at heq
            · exact absurd heq.2 (by simp)
            · rw [Bool.and_eq_true, Bool.and_eq_true] at c2
              exact of_decide_eq_true c2.2
            · exact absurd heq.2 (by simp)
            · exact absurd heq.2 (by simp)
            · exact absurd heq.2 (by simp)
            · exact absurd heq.2 (by simp)
          · cases h
            simp only [Msg.sellMsg.injEq] at hm
            subst hm
            simp only [firstMatch] at heq
            split_ifs at heq with c1 c2 c3 c4 c5 c6 <;>
              simp only [Option.some.injEq, Prod.mk.injEq] at heq
            · exact absurd heq.2 (by simp)
            · exact absurd heq.1 (by simp [hfull])
            · exact absurd heq.2 (by simp)
            · exact absurd heq.2 (by simp)
            · exact absurd heq.2 (by simp)
            · exact absurd heq.2 (by simp)
    · rw [if_pos hpos] at h
      cases h
  · intro hpos h1 h2 h3
    subst hpos
    simp only [sell_phase]
    rw [if_neg (by simp)]
    by_cases g1 : 0 < f.macd_val ∧ 25 < f.adx_val ∧ dv.bp * 1.005 < dv.latest_close
    · exact ⟨.uptrendHold, peakUpd dv.latest_close ctx, by rw [if_pos g1],
        Or.inl rfl⟩
    · by_cases g2 : (decide (dv.latest_close < dv.prev_close_5m) &&
          decide (dv.latest_close < dv.last_open_5m) &&
          (decide (dv.ob_sell_mean * 3 < dv.ob_sell_mean5) ||
           decide (dv.orderbook_strength < 0.6)) &&
          decide (dv.ob_buy_mean * 2 < dv.ob_buy_last)) = true
      · exact ⟨.buyWallHold, peakUpd dv.latest_close ctx,
          by rw [if_neg g1, if_pos g2], Or.inr (Or.inl rfl)⟩
      · by_cases g3 : ((match ctx.psTime with
            | some t => decide (env.nowT - t < 180)
            | none => false) &&
            !(decide (dv.latest_close < dv.min15_low * 0.99) ||
              decide (dv.latest_close < dv.prev_close_5m) &&
                decide (dv.latest_close < dv.last_open_5m) &&
                (decide (dv.ob_sell_mean * 3 < dv.ob_sell_mean5) ||
                 decide (dv.orderbook_strength < 0.6)) ||
              (dv.rsi_1m_drop || dv.is_breaking_1m_support) &&
                decide (dv.bp * 0.001 <
                  dv.latest_close * (1 - fee) - dv.bp * (1 + fee)))) = true
        · exact ⟨.psCooldownHold, peakUpd dv.latest_close ctx,
            by rw [if_neg g1, if_neg g2, if_pos g3], Or.inr (Or.inr (Or.inl rfl))⟩
        · exact ⟨.trailLossHold, peakUpd dv.latest_close ctx,
            by rw [if_neg g1, if_neg g2, if_neg g3, if_pos ⟨h1, h2, h3⟩],
            Or.inr (Or.inr (Or.inr rfl))⟩

/-- Derived values of a holding at entry 1000 whose peak 1100 has retraced
to 1050 with positive expected profit (an actual trailing-stop sell). -/
def dvC2win : Deriv :=
  ⟨1050, 1000, 1, 0, false, 1000, false, false, false, 1000, 1050, 1050, 1,
   1, 1, 1, 1050, 0⟩

/-- Derived values of a holding at entry 1000 whose peak 1020 has retraced
to 980: the retracement condition holds but the exit would be a loss. -/
def dvC2loss : Deriv :=
  ⟨980, 1000, 1, 0, false, 900, false, false, false, 900, 980, 980, 1, 1,
   1, 1, 980, 0⟩

unseal Rat.add Rat.mul Rat.sub Rat.inv Rat.ofScientific in
/-- Witness for C2: part (1) applied to a concrete trailing-stop sell at a
profit, part (2) applied to a concrete retracement at a loss. -/
theorem spec_c2_no_trailing_stop_at_loss_witness :
    ((0 : ℚ) < 1050 * (1 - 0.0005) - 1000 * (1 + 0.0005)) ∧
    (∃ m ctx1,
      sell_phase dvC2loss featN envN 0.0005 1
        { ctxN with peak_price_since_buy := some 1020 } =
        .done (mkHold "" m) ctx1 ∧
      (m = .uptrendHold ∨ m = .buyWallHold ∨ m = .psCooldownHold ∨
       m = .trailLossHold)) := by
  constructor
  · exact (spec_c2_no_trailing_stop_at_loss dvC2win featN envN 0.0005 1
      { ctxN with peak_price_since_buy := some 1100 }).1
      ⟨"sell", .sellMsg .trailingStop, some ((397403199 : ℚ)/400000),
       some ((401397201 : ℚ)/400000), none, none⟩
      ⟨none, 0, none, none, none, 0, none, (1999 : ℚ)/40, (1999 : ℚ)/40⟩
      (by rfl) rfl
  · exact (spec_c2_no_trailing_stop_at_loss dvC2loss featN envN 0.0005 1
      { ctxN with peak_price_since_buy := some 1020 }).2
      rfl (by decide) (by decide) (by decide)

/-- A candle row at close 980 (entry 1000, peak 1020: retracement at a
loss). -/
def rowC2 : CandleRowO := ⟨some 980, some 980, some 980, some 980, some 1⟩

set_option maxRecDepth 100000 in
unseal Rat.add Rat.mul Rat.sub Rat.inv Rat.ofScientific in
/-- Counterexample for C2 as frozen: a HOLDING evaluation (position 1) in
which the trailing-stop retracement holds at a loss (entry 1000, stored
peak 1020 > 1000·1.015, price 980 < 1020·0.988, expected profit < 0), yet
`trading_strategy` returns a `buy` decision (a low-exposure top-up
re-entry fires in the buy section first), not signal none with a hold
message. -/
theorem spec_c2_counterexample :
    trading_strategy
      ⟨List.replicate 14 rowO1, List.replicate 200 rowC2,
       List.replicate 100 rowO1, [obRowO1], 1, some 1000, 0.0005, featN,
       ⟨1000000, 12, 0.4, some ⟨0.5, 0⟩⟩⟩
      { ctxN with peak_price_since_buy := some 1020 } =
      .ok (⟨"buy", .buyMsg .priceDropOrSignal, none, none, none, some 1⟩,
           ⟨none, 0, some 1000000, some 980, none, 0, none, 0, 0⟩) ∧
    (1000 : ℚ) * 1.015 < 1020 ∧ (980 : ℚ) < 1020 * 0.988 ∧
    (980 : ℚ) * (1 - 0.0005) - 1000 * (1 + 0.0005) ≤ 0 :=
  ⟨by rfl, by norm_num, by norm_num, by norm_num⟩

/-- C3: on a full-exit sell decision of the sell section, the
consecutive-loss counter is incremented and the last-loss timestamp set
**iff** the fee-adjusted expected profit of the exit is non-positive; a
profitable full exit leaves both untouched, and a partial exit never
increments the counter — it decreases it by 2, floored at 0, and leaves
the last-loss timestamp alone. -/
theorem spec_c3_loss_counter_iff (dv : Deriv) (f : Features) (env : Env)
    (fee : ℚ) (pos : ℤ) (ctx : Ctx) (d : Decision) (ctx1 : Ctx)
    (h : sell_phase dv f env fee pos ctx = .done d ctx1) :
    (d.signal = "sell" →
      (dv.latest_close * (1 - fee) - dv.bp * (1 + fee) ≤ 0 →
        ctx1.consecutive_losses = ctx.consecutive_losses + 1 ∧
        ctx1.last_sell_time = some env.nowT) ∧
      (0 < dv.latest_close * (1 - fee) - dv.bp * (1 + fee) →
        ctx1.consecutive_losses = ctx.consecutive_losses ∧
        ctx1.last_sell_time = ctx.last_sell_time)) ∧
    (d.signal = "sell_partial" →
      ctx1.consecutive_losses = max 0 (ctx.consecutive_losses - 2) ∧
      ctx1.last_sell_time = ctx.last_sell_time) := by
  simp only [sell_phase] at h
  by_cases hpos : pos = 1
  · subst hpos
    rw [if_neg (by simp)] at h
    split_ifs at h with h1 h2 h3 h4 hexp
    · cases h
      constructor <;> intro hs <;> simp [mkHold] at hs
    · cases h
      constructor <;> intro hs <;> simp [mkHold] at hs
    · cases h
      constructor <;> intro hs <;> simp [mkHold] at hs
    · cases h
      constructor <;> intro hs <;> simp [mkHold] at hs
    · split at h
      · cases h
      · next isFull reason heq =>
        split_ifs at h with hfull
        · cases h
          refine ⟨fun _ => ⟨fun hloss => absurd hexp hloss.not_lt, fun _ => ?_⟩,
                  fun hs => by simp at hs⟩
          cases reason <;>
            simp [addProfit, peakUpd_losses, peakUpd_last_sell]
        · cases h
          refine ⟨fun hs => by simp at hs, fun _ => ?_⟩
          simp [addProfit, peakUpd_losses, peakUpd_last_sell]
    · split at h
      · cases h
      · next isFull reason heq =>
        split_ifs at h with hfull
        · cases h
          refine ⟨fun _ => ⟨fun _ => ?_, fun h0 => absurd h0 hexp⟩,
                  fun hs => by simp at hs⟩
          cases reason <;>
            simp [updateLoss, addProfit, peakUpd_losses, peakUpd_last_sell]
        · cases h
          refine ⟨fun hs => by simp at hs, fun _ => ?_⟩
          simp [addProfit, peakUpd_losses, peakUpd_last_sell]
  · rw [if_pos hpos] at h
    cases h

/-- Derived values of a losing exit through the recent-low floor: close 90
below the 15-bar low 100 · 0.99, entry 100. -/
def dvC3 : Deriv :=
  ⟨90, 100, 1, 0, false, 100, false, false, false, 100, 90, 90, 1, 1, 1, 1,
   90, 0⟩

unseal Rat.add Rat.mul Rat.sub Rat.inv Rat.ofScientific in
/-- Witness for C3 at a concrete losing full exit (recent-low breach at a
loss increments the counter and stamps the time). -/
theorem spec_c3_loss_counter_iff_witness :
    (⟨some 1000000, 1, none, none, none, 0, none, 0, 0⟩ : Ctx).consecutive_losses =
      ctxN.consecutive_losses + 1 ∧
    (⟨some 1000000, 1, none, none, none, 0, none, 0, 0⟩ : Ctx).last_sell_time =
      some envN.nowT :=
  ((spec_c3_loss_counter_iff dvC3 featN envN 0.0005 1 ctxN
      ⟨"sell", .sellMsg .recentLowBreak, some ((97853049 : ℚ)/1000000),
       some ((25961013 : ℚ)/250000), none, none⟩
      ⟨some 1000000, 1, none, none, none, 0, none, 0, 0⟩
      (by rfl)).1 rfl).1 (by decide)

/-- Every decision `buy_phase_rest` returns carries no `sell_ratio`,
`stop_loss` or `take_profit` key, and its signal is `buy` or none. -/
theorem buy_phase_rest_shape (dv : Deriv) (f : Features) (env : Env)
    (m e r u fo lo : Bool) (ctx1 : Ctx) (d : Decision) (ctx2 : Ctx)
    (h : buy_phase_rest dv f env m e r u fo lo ctx1 = .done d ctx2) :
    d.sellFrac = none ∧ d.stop_loss = none ∧ d.take_profit = none ∧
    (d.signal = "buy" ∨ d.signal = "") := by
  simp only [buy_phase_rest] at h
  split_ifs at h
  all_goals
    first
      | (cases h; exact ⟨rfl, rfl, rfl, Or.inr rfl⟩)
      | (split at h <;>
          first
            | (cases h; exact ⟨rfl, rfl, rfl, Or.inl rfl⟩)
            | cases h)

/-- Every decision `buy_phase` returns carries no `sell_ratio`,
`stop_loss` or `take_profit` key, and its signal is `buy` or none. -/
theorem buy_phase_shape (dv : Deriv) (f : Features) (env : Env) (pos : ℤ)
    (ctx : Ctx) (d : Decision) (ctx1 : Ctx)
    (h : buy_phase dv f env pos ctx = .done d ctx1) :
    d.sellFrac = none ∧ d.stop_loss = none ∧ d.take_profit = none ∧
    (d.signal = "buy" ∨ d.signal = "") := by
  simp only [buy_phase] at h
  split_ifs at h
  all_goals
    first
      | (cases h; exact ⟨rfl, rfl, rfl, Or.inr rfl⟩)
      | cases h
      | (split at h <;>
          first
            | (cases h; exact ⟨rfl, rfl, rfl, Or.inr rfl⟩)
            | cases h
            | exact buy_phase_rest_shape _ _ _ _ _ _ _ _ _ _ _ _ h
            | exact buy_phase_rest_shape _ _ _ _ _ _ _ _ _ _ _ _ h.symm
            | (split_ifs at h <;>
                first
                  | (cases h; exact ⟨rfl, rfl, rfl, Or.inr rfl⟩)
                  | cases h
                  | exact buy_phase_rest_shape _ _ _ _ _ _ _ _ _ _ _ _ h
                  | exact buy_phase_rest_shape _ _ _ _ _ _ _ _ _ _ _ _ h.symm))

set_option maxHeartbeats 2000000 in
/-- C8 (amended): the step table `get_partial_sell_ratio` is non-increasing
in the count, starts at 0.4, floors at 0.1 and takes values in (0,1]; every
`sell_partial` decision carries `sell_ratio` = the table value **at count
0** (the counter is popped at line 497 before the line-520 lookup, so the
pre-exit count is never consulted and the ratio is always 0.4); `sell`
decisions of the sell section and every decision of the buy section carry
no `sell_ratio` field. -/
theorem spec_c8_sell_ratio_table :
    (stepSellFrac 0 = 0.4 ∧ stepSellFrac 1 = 0.3 ∧ stepSellFrac 2 = 0.1 ∧
     (∀ n, 3 ≤ n → stepSellFrac n = 0.1) ∧
     (∀ m n, m ≤ n → stepSellFrac n ≤ stepSellFrac m) ∧
     (∀ n, 0 < stepSellFrac n ∧ stepSellFrac n ≤ 1)) ∧
    (∀ (dv : Deriv) (f : Features) (env : Env) (fee : ℚ) (pos : ℤ)
       (ctx : Ctx) (d : Decision) (ctx1 : Ctx),
      sell_phase dv f env fee pos ctx = .done d ctx1 →
      (d.signal = "sell_partial" → d.sellFrac = some (stepSellFrac 0)) ∧
      (d.signal = "sell" ∨ d.signal = "" → d.sellFrac = none)) ∧
    (∀ (dv : Deriv) (f : Features) (env : Env) (pos : ℤ) (ctx : Ctx)
       (d : Decision) (ctx1 : Ctx),
      buy_phase dv f env pos ctx = .done d ctx1 → d.sellFrac = none) := by
  refine ⟨⟨rfl, rfl, rfl, ?_, ?_, ?_⟩, ?_, ?_⟩
  · intro n h3
    unfold stepSellFrac
    split_ifs <;> first | rfl | omega
  · intro m n hmn
    unfold stepSellFrac
    split_ifs <;> first | (exfalso; omega) | norm_num
  · intro n
    unfold stepSellFrac
    split_ifs <;> norm_num
  · intro dv f env fee pos ctx d ctx1 h
    simp only [sell_phase] at h
    by_cases hpos : pos = 1
    · subst hpos
      rw [if_neg (by simp)] at h
      split_ifs at h with h1 h2 h3 h4 hexp
      · cases h; exact ⟨fun hs => by simp [mkHold] at hs, fun _ => rfl⟩
      · cases h; exact ⟨fun hs => by simp [mkHold] at hs, fun _ => rfl⟩
      · cases h; exact ⟨fun hs => by simp [mkHold] at hs, fun _ => rfl⟩
      · cases h; exact ⟨fun hs => by simp [mkHold] at hs, fun _ => rfl⟩
      · split at h
        · cases h
        · next isFull reason heq =>
          split_ifs at h with hfull
          · cases h; exact ⟨fun hs => by simp at hs, fun _ => rfl⟩
          · cases h; exact ⟨fun _ => rfl, fun hs => by simp at hs⟩
      · split at h
        · cases h
        · next isFull reason heq =>
          split_ifs at h with hfull
          · cases h; exact ⟨fun hs => by simp at hs, fun _ => rfl⟩
          · cases h; exact ⟨fun _ => rfl, fun hs => by simp at hs⟩
    · rw [if_pos hpos] at h
      cases h
  · intro dv f env pos ctx d ctx1 h
    exact (buy_phase_shape dv f env pos ctx d ctx1 h).1

/-- Derived values of a holding at entry 1000 with price 1019 above the
fixed take-profit threshold: a partial exit fires. -/
def dvC8 : Deriv :=
  ⟨1019, 1000, 1, 0, false, 1000, false, false, false, 1000, 1019, 1019, 1,
   1, 1, 1, 1019, 0⟩

/-- Derived values of a distressed top-up buy: price 980 is 2% under the
entry 1000 and the held fraction is low. -/
def dvC8buy : Deriv :=
  ⟨980, 1000, 1, 0, false, 900, false, false, false, 900, 980, 980, 1, 1, 1,
   1, 980, 0.5⟩

unseal Rat.add Rat.mul Rat.sub Rat.inv Rat.ofScientific in
/-- Witness for C8: a concrete partial exit carries the count-0 fraction
and a concrete buy carries none. -/
theorem spec_c8_sell_ratio_table_witness :
    (⟨"sell_partial", .sellMsg .fixedTp, some ((397403199 : ℚ)/400000),
      some ((401397201 : ℚ)/400000), some ((2 : ℚ)/5), none⟩ : Decision).sellFrac =
      some (stepSellFrac 0) ∧
    (⟨"buy", .buyMsg .priceDropOrSignal, none, none, none,
      some 1⟩ : Decision).sellFrac = none :=
  ⟨(spec_c8_sell_ratio_table.2.1 dvC8 featN envN 0.0005 1
      { ctxN with psCount := 1, peak_price_since_buy := some 1000 }
      ⟨"sell_partial", .sellMsg .fixedTp, some ((397403199 : ℚ)/400000),
       some ((401397201 : ℚ)/400000), some ((2 : ℚ)/5), none⟩
      ⟨none, 0, none, none, some 1000000, 1, none, (37981 : ℚ)/5000,
       (37981 : ℚ)/5000⟩ (by rfl)).1 rfl,
   spec_c8_sell_ratio_table.2.2 dvC8buy featN ⟨1000000, 12, 0.4, some ⟨0.5, 0⟩⟩
     1 ctxN ⟨"buy", .buyMsg .priceDropOrSignal, none, none, none, some 1⟩
     ⟨none, 0, some 1000000, some 980, none, 0, none, 0, 0⟩ (by rfl)⟩

/-- A candle row at close 1019 with lows 1000 (above the fixed
take-profit of an entry at 1000, no stop condition active). -/
def rowC8 : CandleRowO := ⟨some 1019, some 1019, some 1000, some 1019, some 1⟩

set_option maxRecDepth 100000 in
unseal Rat.add Rat.mul Rat.sub Rat.inv Rat.ofScientific in
/-- Counterexample for C8 as frozen: with a pre-exit partial-exit count of
1 the step table says 0.3, but the emitted `sell_partial` decision carries
`sell_ratio` 0.4 = table(0) — the count was popped before the lookup. -/
theorem spec_c8_counterexample :
    trading_strategy
      ⟨List.replicate 14 rowO1, List.replicate 200 rowC8,
       List.replicate 100 rowO1, [obRowO1], 1, some 1000, 0.0005, featN,
       envN⟩
      { ctxN with psCount := 1, peak_price_since_buy := some 1000 } =
      .ok (⟨"sell_partial", .sellMsg .fixedTp, some ((397403199 : ℚ)/400000),
            some ((401397201 : ℚ)/400000), some ((2 : ℚ)/5), none⟩,
           ⟨none, 0, none, none, some 1000000, 1, none, (37981 : ℚ)/5000,
            (37981 : ℚ)/5000⟩) ∧
    ({ ctxN with psCount := 1, peak_price_since_buy := some (1000 : ℚ) } : Ctx).psCount = 1 ∧
    stepSellFrac 1 = 0.3 ∧ ((2 : ℚ)/5 ≠ stepSellFrac 1) :=
  ⟨by rfl, rfl, rfl, by norm_num [stepSellFrac]⟩

set_option maxRecDepth 100000 in
unseal Rat.add Rat.mul Rat.sub Rat.inv Rat.ofScientific in
/-- C9: `trading_strategy` does raise for malformed input.  With candle
frames that all meet their bar-count minimums (14/200/100 bars) but an
order-book frame with no rows — exactly what `get_orderbook_data` returns
when the order-book fetch fails soft — the `volume_spike` computation of
line 160 (`df_orderbook['buy_volume'].iloc[-1]`) raises `IndexError`
instead of returning a `{signal: none}` decision; the order book is not
covered by the bar-count guard of line 136.  (The caller-supplied
`buy_price = 0` of the claim does *not* raise: the divisions of lines
272/317 are numpy-float divisions, which yield inf, not
`ZeroDivisionError`.) -/
theorem spec_c9_raises_on_empty_orderbook :
    trading_strategy
      ⟨List.replicate 14 rowO1, List.replicate 200 rowO1,
       List.replicate 100 rowO1, [], 0, some 0, 0.0005, featN, envN⟩ ctxN =
      .error "IndexError: single positional indexer is out-of-bounds" ∧
    (processCandles (List.replicate 14 rowO1)).length = 14 ∧
    (processCandles (List.replicate 200 rowO1)).length = 200 ∧
    (processCandles (List.replicate 100 rowO1)).length = 100 :=
  ⟨by rfl, by rfl, by rfl, by rfl⟩

end UPbit
